import Mathlib

/-!
Verification of the two coal-market scraping scripts (Graph_Scrape.py and
scrape.py) against their natural-language specification.

The Python code is shallowly embedded: each library call whose outcome is
decided by the outside world (HTTP transport, the browser session, the HTML
parser) is an oracle supplied through an environment record, while every
piece of logic written in the repository itself (the regex searches, the
URL construction, status handling, the point filter, the control flow of
the two stages and of the main block) is translated directly into
executable Lean functions.
-/

namespace GraphScrape

/-- An exception surfacing from a Python library call: either a Selenium
wait timeout (TimeoutException) or any other exception carrying a message. -/
inductive PyExn where
  | timeoutExn
  | generalExn (msg : String)
deriving DecidableEq

/-- An HTTP response as seen by the client: final status code and body text. -/
structure HttpResponse where
  status : Nat
  body : String
deriving DecidableEq

/-- Configuration constant MAIN_PAGE_URL from Graph_Scrape.py. -/
def MAIN_PAGE_URL : String := "https://www.eia.gov/coal/markets/includes/archive2.php"

/-- Configuration constant BASE_URL from Graph_Scrape.py. -/
def BASE_URL : String := "https://www.eia.gov/coal/markets/includes/"

/-- Configuration constant OUTPUT_FILENAME from Graph_Scrape.py. -/
def OUTPUT_FILENAME : String := "eia_coal_prices.csv"

/-- The literal characters of the fragment src=" inside the iframe regex. -/
def srcLit : List Char := ['s', 'r', 'c', '=', '"']

/-- Capture group of the regex: at a position right after src=", greedily
take the maximal run of non-quote characters; the match succeeds only when
that run is nonempty and is terminated by a closing double quote. -/
def captureSrc (l : List Char) : Option (List Char) :=
  let run := l.takeWhile (fun c => c ≠ '"')
  if run.isEmpty then none
  else match l.drop run.length with
    | '"' :: _ => some run
    | _ => none

/-- Backtracking of the greedy subpattern between the tag name and src=".
The subpattern consumes any characters except a closing angle bracket, and
greediness means the rightmost viable occurrence of src=" wins; positions
beyond a closing angle bracket are unreachable. -/
def greedySrc : List Char → Option (List Char)
  | [] => none
  | c :: rest =>
    match (if c = '>' then none else greedySrc rest) with
    | some r => some r
    | none =>
      if srcLit.isPrefixOf (c :: rest) then captureSrc ((c :: rest).drop srcLit.length)
      else none

/-- The literal characters of the iframe tag opener in the regex. -/
def iframeLit : List Char := ['<', 'i', 'f', 'r', 'a', 'm', 'e']

/-- Leftmost-match search for the fixed iframe-src pattern over the page
characters, following the semantics of re.search: start positions are tried
left to right and the first position where the whole pattern matches wins. -/
def searchIframe : List Char → Option (List Char)
  | [] => none
  | c :: rest =>
    if iframeLit.isPrefixOf (c :: rest) then
      match greedySrc ((c :: rest).drop iframeLit.length) with
      | some r => some r
      | none => searchIframe rest
    else searchIframe rest

/-- String-level wrapper of the iframe-src regex search. -/
def searchIframeSrc (html : String) : Option String :=
  (searchIframe html.toList).map String.mk

/-- Python str.lstrip with an explicit character set: remove every leading
character that belongs to the set, however many there are. -/
def pyLstrip (cs : List Char) (s : String) : String :=
  String.mk (s.toList.dropWhile (fun c => decide (c ∈ cs)))

/-- Internal failure cause of the Locator; the Python function prints it and
converts every cause to a None return value. -/
inductive Stage1Exn where
  | requestExn (e : PyExn)
  | httpError (code : Nat)
  | iframeNotFound
deriving DecidableEq

/-- Observable outcome of one Locator call: the value returned to the main
block, the internal exception when there was one, and whether the iframe
pattern search over the body was attempted at all. -/
structure Stage1Result where
  url : Option String
  exn : Option Stage1Exn
  searched : Bool
deriving DecidableEq

/-- Embedding of stage1_infiltrate_and_get_iframe_url. The GET itself is an
oracle (the transport can raise); raise_for_status raises exactly on a 4xx
or 5xx status, mirroring the requests-style client; on success the body is
searched with the fixed iframe regex and the discovered path is resolved
against BASE_URL after a Python lstrip of the dot and slash characters.
Every exception is caught and turned into a None return value. -/
def stage1_infiltrate_and_get_iframe_url (fetch : Except PyExn HttpResponse) : Stage1Result :=
  match fetch with
  | .error e => { url := none, exn := some (.requestExn e), searched := false }
  | .ok resp =>
    if 400 ≤ resp.status ∧ resp.status < 600 then
      { url := none, exn := some (.httpError resp.status), searched := false }
    else
      match searchIframeSrc resp.body with
      | none => { url := none, exn := some .iframeNotFound, searched := true }
      | some rel =>
        { url := some (BASE_URL ++ pyLstrip ['.', '/'] rel), exn := none, searched := true }

/-- Civil calendar date (year, month, day) of a day count relative to
1970-01-01, by the standard era decomposition over 400-year cycles. -/
def civilFromDays (z0 : Int) : Int × Int × Int :=
  let z := z0 + 719468
  let era := z.fdiv 146097
  let doe := z - era * 146097
  let yoe := (doe - doe.fdiv 1460 + doe.fdiv 36524 - doe.fdiv 146096).fdiv 365
  let y := yoe + era * 400
  let doy := doe - (365 * yoe + yoe.fdiv 4 - yoe.fdiv 100)
  let mp := (5 * doy + 2).fdiv 153
  let d := doy - (153 * mp + 2).fdiv 5 + 1
  let m := mp + (if mp < 10 then 3 else -9)
  (y + (if m ≤ 2 then 1 else 0), m, d)

/-- Two-digit zero padding used by the date format of strftime. -/
def pad2 (n : Int) : String :=
  if n < 10 then "0" ++ toString n else toString n

/-- Embedding of datetime.fromtimestamp(ms / 1000).strftime of the pattern
year-month-day. The Python call converts in the system time zone; the model
fixes that zone to UTC. -/
def epochMsToDateStr (ms : Int) : String :=
  let secs := ms.fdiv 1000
  let days := secs.fdiv 86400
  let ymd := civilFromDays days
  toString ymd.1 ++ "-" ++ pad2 ymd.2.1 ++ "-" ++ pad2 ymd.2.2

/-- One series as returned by the in-session script: an optional name and a
list of (timestamp, value) pairs, either component possibly null. -/
structure SeriesJS where
  name : Option String
  data : List (Option Int × Option Rat)
deriving DecidableEq

/-- One output row of the CSV: series name, formatted date, numeric value. -/
structure DataPoint where
  series : Option String
  date : String
  value : Rat
deriving DecidableEq

/-- Inner loop of process_and_save_data over the points of one series:
each point whose timestamp and value are both present appends one row to
the accumulator; all other points are skipped. -/
def appendSeriesPoints (acc : List DataPoint) (s : SeriesJS) : List DataPoint :=
  s.data.foldl
    (fun acc p =>
      match p with
      | (some ts, some v) =>
        acc ++ [{ series := s.name, date := epochMsToDateStr ts, value := v }]
      | _ => acc)
    acc

/-- The all_data_points list built by the nested loops of
process_and_save_data. -/
def buildDataPoints (data : List SeriesJS) : List DataPoint :=
  data.foldl appendSeriesPoints []

/-- The files the script can write: the CSV of records and the diagnostic
screenshot, each overwritten whole on every write. -/
structure FS where
  csvFile : Option (List DataPoint)
  screenshotFile : Option Unit
deriving DecidableEq

/-- Embedding of process_and_save_data: a falsy input (None from a failed
stage 2, or an empty list) aborts without touching the output file;
otherwise the CSV file is overwritten with the freshly built rows. -/
def process_and_save_data (data : Option (List SeriesJS)) (fs : FS) : FS :=
  match data with
  | none => fs
  | some [] => fs
  | some l => { fs with csvFile := some (buildDataPoints l) }

/-- Oracles deciding the outcome of every external step of stage 2: driver
construction, the stealth patch, navigation, the two bounded waits, the tab
click, and the in-session script evaluation (whose value may be the JS null,
modelled as none). -/
structure Stage2Env where
  createDriver : Except PyExn Unit
  stealthCall : Except PyExn Unit
  navigate : Except PyExn Unit
  waitClickable : Except PyExn Unit
  clickTab : Except PyExn Unit
  waitRender : Except PyExn Unit
  execScript : Except PyExn (Option (List SeriesJS))

/-- Externally visible side effects of one stage-2 call, in order. -/
inductive Effect where
  | driverCreated
  | screenshotSaved
  | driverQuit
deriving DecidableEq

/-- The body of the try block of stage 2 after the driver exists: each step
runs in order and the first exception aborts the rest; a null or empty
extraction raises the no-data exception; a nonempty extraction is returned. -/
def stage2Body (env : Stage2Env) : Except PyExn (List SeriesJS) :=
  match env.stealthCall with
  | .error e => .error e
  | .ok _ =>
  match env.navigate with
  | .error e => .error e
  | .ok _ =>
  match env.waitClickable with
  | .error e => .error e
  | .ok _ =>
  match env.clickTab with
  | .error e => .error e
  | .ok _ =>
  match env.waitRender with
  | .error e => .error e
  | .ok _ =>
  match env.execScript with
  | .error e => .error e
  | .ok extracted =>
    match extracted with
    | some (s :: rest) => .ok (s :: rest)
    | _ => .error (.generalExn "Could not extract data from Highcharts object.")

/-- Embedding of stage2_extract_data_from_iframe. If driver construction
itself raises, the except branch sees a null driver (no screenshot) and the
finally branch quits nothing. Once the driver exists, an exception anywhere
in the body saves a screenshot and returns None, and the finally branch
always quits the driver; on success the extracted list is returned. -/
def stage2_extract_data_from_iframe (_iframe_url : String) (env : Stage2Env) :
    Option (List SeriesJS) × List Effect :=
  match env.createDriver with
  | .error _ => (none, [])
  | .ok _ =>
    match stage2Body env with
    | .ok data => (some data, [.driverCreated, .driverQuit])
    | .error _ => (none, [.driverCreated, .screenshotSaved, .driverQuit])

/-- Environment of one whole pipeline run: the transport outcome of the
stage-1 GET and the browser oracles of stage 2. -/
structure PipelineEnv where
  fetchMain : Except PyExn HttpResponse
  browser : Stage2Env

/-- Which of the three top-level calls of the main block ran. -/
inductive MainEv where
  | stage1Run
  | stage2Run
  | processRun
deriving DecidableEq

/-- Application of the stage-2 side effects to the file system: the
screenshot file is overwritten exactly when a screenshot was saved. -/
def applyEffects (effs : List Effect) (fs : FS) : FS :=
  if Effect.screenshotSaved ∈ effs then { fs with screenshotFile := some () } else fs

/-- Embedding of the main block: stage 1 always runs; its returned value is
tested for Python truthiness (None and the empty string are falsy), and only
a truthy URL starts stage 2 followed by the processing step. -/
def mainRun (env : PipelineEnv) (fs : FS) : FS × List MainEv :=
  let r1 := stage1_infiltrate_and_get_iframe_url env.fetchMain
  match r1.url with
  | none => (fs, [.stage1Run])
  | some iframe_url =>
    if iframe_url = "" then (fs, [.stage1Run])
    else
      let s2 := stage2_extract_data_from_iframe iframe_url env.browser
      (process_and_save_data s2.1 (applyEffects s2.2 fs), [.stage1Run, .stage2Run, .processRun])

/-- Modelled from the spec: the resolution rule claimed by the spec, which
strips exactly one leading relative-path marker (a single leading dot-slash)
from the discovered path before concatenating it to the base path. -/
def stripOneLeadingMarker (s : String) : String :=
  match s.toList with
  | '.' :: '/' :: rest => String.mk rest
  | _ => s

/-- Modelled from the spec: the record one reported point becomes, or none
when its timestamp or its value is missing. -/
def seriesRowOf (s : SeriesJS) (p : Option Int × Option Rat) : Option DataPoint :=
  match p with
  | (some ts, some v) => some { series := s.name, date := epochMsToDateStr ts, value := v }
  | _ => none

/-- Modelled from the spec: the invariant that each series contributes its
points in the order the rendering library reported them, with the null ones
filtered out and nothing interpolated, each retained point tagged with its
series name and converted calendar date. -/
def retainedPointsSpec (data : List SeriesJS) : List DataPoint :=
  data.flatMap (fun s => s.data.filterMap (seriesRowOf s))

/-- A browser environment in which every external step succeeds and the
in-session script returns one nonempty series. -/
def okBrowserEnv : Stage2Env where
  createDriver := .ok ()
  stealthCall := .ok ()
  navigate := .ok ()
  waitClickable := .ok ()
  clickTab := .ok ()
  waitRender := .ok ()
  execScript := .ok (some [⟨some "A", [(some 1700000000000, some 10)]⟩])

end GraphScrape

namespace Scrape

open GraphScrape (PyExn HttpResponse)

/-- The fixed search URL of scrape.py. -/
def search_url : String := "https://www.sxcoal.com/news/search?search=%E7%85%A4%E7%82%AD%E5%BA%93%E5%AD%98"

/-- The fixed site base URL of scrape.py. -/
def base_url : String := "https://www.sxcoal.com"

/-- The keyword table of scrape.py: Chinese phrase searched in the article
text, paired with the English row label. -/
def keywords : List (String × String) :=
  [("北方港（不包括黄骅港）煤炭库存", "Northern Ports (excluding Huanghua)"),
   ("京唐港煤炭库存", "Jingtang Port"),
   ("曹妃甸港煤炭库存", "Caofeidian Port")]

/-- Separator class of the keyword regex: the two Chinese copulas, the two
colon forms, and whitespace. The Python class also admits the rarer Unicode
whitespace characters; the model uses the ASCII whitespace set. -/
def isSep (c : Char) : Bool :=
  c = '为' || c = '是' || c = ':' || c = '：' || c.isWhitespace

/-- Capture group of the keyword regex: a maximal digit run, an optional
decimal point, and a further maximal digit run, greedily. -/
def captureNumber (l : List Char) : Option (List Char) :=
  let d1 := l.takeWhile Char.isDigit
  if d1.isEmpty then none
  else
    match l.drop d1.length with
    | '.' :: rest2 => some (d1 ++ '.' :: rest2.takeWhile Char.isDigit)
    | _ => some d1

/-- Leftmost-match search of one keyword pattern over the article text:
at each start position the escaped keyword must match literally, then any
run of separators is skipped, and a number must follow; the first position
where all of that succeeds yields the captured numeral. -/
def searchKeywordNumber (kw : List Char) : List Char → Option (List Char)
  | [] => none
  | c :: rest =>
    if kw.isPrefixOf (c :: rest) then
      match captureNumber (((c :: rest).drop kw.length).dropWhile isSep) with
      | some n => some n
      | none => searchKeywordNumber kw rest
    else searchKeywordNumber kw rest

/-- One cell of the results table: a captured numeral, or the literal
Not found marker the Python code stores in its place. -/
inductive Cell where
  | found (numeral : String)
  | notFound
deriving DecidableEq

/-- Oracles deciding the outcome of the external calls of scrape.py: the
HTTP GET (applied to each requested URL), the article-link selector and the
content-div lookup of the HTML parser (each applied to a response body),
and the wall-clock timestamp string. -/
structure ScrapeEnv where
  httpGet : String → Except PyExn HttpResponse
  selectLatestLink : String → Option (Option String)
  findViewContent : String → Option String
  nowStr : String

/-- Steps 1 to 3 of scrape_sxcoal_inventory: fetch the search page, check
its status, select the first article link, read its href (a missing href
raises and is caught), fetch the article, check its status, and look up the
content element (a missing element raises and is caught). Every failure
collapses to none, matching the empty-DataFrame returns of the source. -/
def fetchArticleText (env : ScrapeEnv) : Option String :=
  match env.httpGet search_url with
  | .error _ => none
  | .ok resp =>
    if 400 ≤ resp.status ∧ resp.status < 600 then none
    else
      match env.selectLatestLink resp.body with
      | none => none
      | some none => none
      | some (some href) =>
        match env.httpGet (base_url ++ href) with
        | .error _ => none
        | .ok articleResp =>
          if 400 ≤ articleResp.status ∧ articleResp.status < 600 then none
          else env.findViewContent articleResp.body

/-- The loop body of step 4: the result cell of one keyword is its captured
numeral when the pattern matches the article text, the not-found marker
otherwise, labelled with the English name. -/
def cellFor (article_text : String) (kw : String × String) : String × Cell :=
  (kw.2,
    match searchKeywordNumber kw.1.toList article_text.toList with
    | some n => Cell.found (String.mk n)
    | none => Cell.notFound)

/-- The per-row test of the any-extracted guard: a row counts as empty when
its cell is the not-found marker. -/
def cellIsNotFound (r : String × Cell) : Bool :=
  match r.2 with
  | Cell.notFound => true
  | _ => false

/-- Embedding of scrape_sxcoal_inventory. The returned rows model the
DataFrame: one row per keyword with its English label, its cell, and the
scrape timestamp column; the empty list models the empty DataFrame returned
on every failure path and when no keyword matched. The Lean function is
total: every exception of the source is caught by its blanket handlers and
becomes the empty result. -/
def scrape_sxcoal_inventory (env : ScrapeEnv) : List (String × Cell × String) :=
  match fetchArticleText env with
  | none => []
  | some article_text =>
    let results := keywords.map (cellFor article_text)
    if results.all cellIsNotFound then []
    else results.map (fun r => (r.1, r.2, env.nowStr))

end Scrape

namespace GraphScrape

/-- Auxiliary: a character surviving at the head of dropWhile fails the
predicate. -/
theorem dropWhile_head_not (p : Char → Bool) (l : List Char) (c : Char)
    (h : (l.dropWhile p).head? = some c) : p c = false := by
  induction l with
  | nil => simp [List.dropWhile] at h
  | cons a l ih =>
    rw [List.dropWhile_cons] at h
    by_cases hp : p a
    · exact ih (by simpa [hp] using h)
    · have hac : a = c := by simpa [hp] using h
      subst hac
      simpa using hp

/-- C1 counterexample: for a container body whose iframe src is the
relative path ././graph.php the code removes both leading dot-slash markers
(the Python lstrip removes every leading dot and slash), so the produced URL
differs from the base path concatenated with the path stripped of exactly
one leading marker. -/
theorem locator_strips_more_than_one_marker :
    searchIframeSrc "<iframe src=\"././graph.php\"></iframe>" = some "././graph.php" ∧
    (stage1_infiltrate_and_get_iframe_url
        (.ok ⟨200, "<iframe src=\"././graph.php\"></iframe>"⟩)).url
      = some (BASE_URL ++ "graph.php") ∧
    BASE_URL ++ "graph.php" ≠ BASE_URL ++ stripOneLeadingMarker "././graph.php" := by
  refine ⟨by decide, by decide, by decide⟩

/-- C1 (amended): whenever the Locator's fetch succeeds with a status that
does not raise and the iframe pattern discovers a path, the returned URL is
the fixed base path concatenated with the suffix of the discovered path
left after removing the maximal leading run of dot and slash characters:
every removed character is a dot or a slash and the kept suffix does not
begin with either. -/
theorem locator_resolves_with_full_lstrip (resp : HttpResponse) (rel : String)
    (hst : ¬ (400 ≤ resp.status ∧ resp.status < 600))
    (hfind : searchIframeSrc resp.body = some rel) :
    ∃ pre suf : List Char,
      rel.toList = pre ++ suf ∧
      (∀ c ∈ pre, c = '.' ∨ c = '/') ∧
      (∀ c, suf.head? = some c → ¬ (c = '.' ∨ c = '/')) ∧
      (stage1_infiltrate_and_get_iframe_url (.ok resp)).url
        = some (BASE_URL ++ String.mk suf) := by
  refine ⟨rel.toList.takeWhile (fun c => decide (c ∈ ['.', '/'])),
          rel.toList.dropWhile (fun c => decide (c ∈ ['.', '/'])), ?_, ?_, ?_, ?_⟩
  · exact (List.takeWhile_append_dropWhile _ _).symm
  · intro c hc
    have hmem := List.mem_takeWhile_imp hc
    rw [decide_eq_true_iff] at hmem
    simpa using hmem
  · intro c hc
    have hfail := dropWhile_head_not _ _ _ hc
    rw [decide_eq_false_iff_not] at hfail
    simpa using hfail
  · simp [stage1_infiltrate_and_get_iframe_url, hst, hfind, pyLstrip]

/-- C1 witness: the amended theorem applied to a concrete 200 response whose
iframe src is ./graph.php. -/
theorem locator_resolves_with_full_lstrip_witness :
    (¬ (400 ≤ (200 : Nat) ∧ (200 : Nat) < 600)) ∧
    searchIframeSrc "<iframe src=\"./graph.php\"></iframe>" = some "./graph.php" ∧
    (∃ pre suf : List Char,
      ("./graph.php" : String).toList = pre ++ suf ∧
      (∀ c ∈ pre, c = '.' ∨ c = '/') ∧
      (∀ c, suf.head? = some c → ¬ (c = '.' ∨ c = '/')) ∧
      (stage1_infiltrate_and_get_iframe_url
          (.ok ⟨200, "<iframe src=\"./graph.php\"></iframe>"⟩)).url
        = some (BASE_URL ++ String.mk suf)) :=
  ⟨by decide, by decide,
    locator_resolves_with_full_lstrip ⟨200, "<iframe src=\"./graph.php\"></iframe>"⟩
      "./graph.php" (by decide) (by decide)⟩

/-- C5 counterexample: a 304 response is not in the 2xx range, yet the
Locator does not fail with FetchError: raise_for_status only raises on 4xx
and 5xx, so the body is pattern-matched and a URL is produced. -/
theorem locator_matches_on_304 :
    ¬ (200 ≤ (304 : Nat) ∧ (304 : Nat) < 300) ∧
    (stage1_infiltrate_and_get_iframe_url
        (.ok ⟨304, "<iframe src=\"./graph.php\"></iframe>"⟩)).searched = true ∧
    (stage1_infiltrate_and_get_iframe_url
        (.ok ⟨304, "<iframe src=\"./graph.php\"></iframe>"⟩)).exn = none ∧
    (stage1_infiltrate_and_get_iframe_url
        (.ok ⟨304, "<iframe src=\"./graph.php\"></iframe>"⟩)).url ≠ none := by
  refine ⟨by decide, by decide, by decide, by decide⟩

/-- C5 (amended): for every response with a 4xx or 5xx status the Locator
fails with the HTTP error (FetchError) and never attempts the iframe
pattern search on the body. -/
theorem locator_fetch_error_on_4xx_5xx (resp : HttpResponse)
    (h4 : 400 ≤ resp.status) (h6 : resp.status < 600) :
    stage1_infiltrate_and_get_iframe_url (.ok resp) =
      { url := none, exn := some (.httpError resp.status), searched := false } := by
  simp [stage1_infiltrate_and_get_iframe_url, h4, h6]

/-- C5 witness: the amended theorem applied to a concrete 404 response. -/
theorem locator_fetch_error_on_4xx_5xx_witness :
    (400 ≤ (404 : Nat)) ∧ ((404 : Nat) < 600) ∧
    stage1_infiltrate_and_get_iframe_url (.ok ⟨404, "irrelevant body"⟩) =
      { url := none, exn := some (.httpError 404), searched := false } :=
  ⟨by decide, by decide,
    locator_fetch_error_on_4xx_5xx ⟨404, "irrelevant body"⟩ (by decide) (by decide)⟩

/-- C6: for every body on which the fixed iframe pattern finds nothing, the
Locator fails with the not-found exception, returns no URL, and does nothing
beyond the attempted search. -/
theorem locator_not_found_when_pattern_fails (resp : HttpResponse)
    (hst : ¬ (400 ≤ resp.status ∧ resp.status < 600))
    (hno : searchIframeSrc resp.body = none) :
    stage1_infiltrate_and_get_iframe_url (.ok resp) =
      { url := none, exn := some .iframeNotFound, searched := true } := by
  simp [stage1_infiltrate_and_get_iframe_url, hst, hno]

/-- Auxiliary: the inner point loop appends exactly the non-null points of
one series, in order, to the accumulator. -/
theorem appendSeriesPoints_eq (s : SeriesJS) :
    ∀ (pts : List (Option Int × Option Rat)) (acc : List DataPoint),
      pts.foldl
        (fun acc p =>
          match p with
          | (some ts, some v) =>
            acc ++ [{ series := s.name, date := epochMsToDateStr ts, value := v }]
          | _ => acc)
        acc = acc ++ pts.filterMap (seriesRowOf s) := by
  intro pts
  induction pts with
  | nil => intro acc; simp
  | cons p pts ih =>
    intro acc
    rw [List.foldl_cons, ih]
    rcases p with ⟨ts, v⟩
    rcases ts with _ | ts <;> rcases v with _ | v <;>
      simp [seriesRowOf, List.filterMap_cons]

/-- Auxiliary: the nested loops of process_and_save_data build exactly the
flat list of retained points, series after series. -/
theorem buildDataPoints_eq_spec (data : List SeriesJS) :
    buildDataPoints data = retainedPointsSpec data := by
  suffices h : ∀ acc, data.foldl appendSeriesPoints acc = acc ++ retainedPointsSpec data by
    simpa using h []
  induction data with
  | nil => intro acc; simp [retainedPointsSpec]
  | cons s rest ih =>
    intro acc
    rw [List.foldl_cons, ih]
    show appendSeriesPoints acc s ++ _ = _
    rw [show appendSeriesPoints acc s = acc ++ s.data.filterMap (seriesRowOf s) from
      appendSeriesPoints_eq s s.data acc]
    simp [retainedPointsSpec]

/-- C2: the processing layer emits the points of each series in reported
order, drops exactly the points with a missing timestamp or value, performs
no interpolation, and tags each retained point with its series name and a
calendar date converted from the millisecond timestamp; on the two-series
example of the spec exactly the two non-null points are retained. -/
theorem points_filtered_in_reported_order :
    (∀ data : List SeriesJS, buildDataPoints data = retainedPointsSpec data) ∧
    buildDataPoints
      [⟨some "A", [(some 1700000000000, some 10), (some 1700086400000, none)]⟩,
       ⟨some "B", [(some 1700000000000, some 5)]⟩] =
      [⟨some "A", "2023-11-14", 10⟩, ⟨some "B", "2023-11-14", 5⟩] :=
  ⟨buildDataPoints_eq_spec, by decide⟩

/-- C6 witness: the theorem applied to a concrete 200 response whose body
holds no iframe tag. -/
theorem locator_not_found_when_pattern_fails_witness :
    (¬ (400 ≤ (200 : Nat) ∧ (200 : Nat) < 600)) ∧
    searchIframeSrc "<p>no frames here</p>" = none ∧
    stage1_infiltrate_and_get_iframe_url (.ok ⟨200, "<p>no frames here</p>"⟩) =
      { url := none, exn := some .iframeNotFound, searched := true } :=
  ⟨by decide, by decide,
    locator_not_found_when_pattern_fails ⟨200, "<p>no frames here</p>"⟩
      (by decide) (by decide)⟩

/-- C3: whenever the browser session was acquired (driver construction
succeeded), the driver is quit on every exit path of stage 2, success or
any failure of any later step. -/
theorem stage2_quits_acquired_driver (url : String) (env : Stage2Env)
    (h : env.createDriver = .ok ()) :
    Effect.driverQuit ∈ (stage2_extract_data_from_iframe url env).2 := by
  unfold stage2_extract_data_from_iframe
  rw [h]
  cases stage2Body env <;> simp

/-- C3 witness: the theorem applied to a session whose element-actionable
wait times out; the driver is still quit. -/
theorem stage2_quits_acquired_driver_witness :
    ({ okBrowserEnv with waitClickable := .error .timeoutExn } : Stage2Env).createDriver
      = .ok () ∧
    Effect.driverQuit ∈ (stage2_extract_data_from_iframe "url"
      { okBrowserEnv with waitClickable := .error .timeoutExn }).2 :=
  ⟨rfl, stage2_quits_acquired_driver "url"
    { okBrowserEnv with waitClickable := .error .timeoutExn } rfl⟩

/-- C4 counterexample: the run in which the in-session script finds no chart
instance (returns null) produces exactly the same outcome, value and side
effects alike, as the run in which the element wait times out; the caller
cannot distinguish the no-data case from the error cases, since both are the
None return value. -/
theorem no_data_outcome_equals_timeout_outcome :
    (stage2_extract_data_from_iframe "url" { okBrowserEnv with execScript := .ok none }).1
      = none ∧
    stage2_extract_data_from_iframe "url" { okBrowserEnv with execScript := .ok none } =
      stage2_extract_data_from_iframe "url"
        { okBrowserEnv with waitClickable := .error .timeoutExn } :=
  ⟨rfl, rfl⟩

/-- C4 (amended): when the in-session script finds no chart instance (null
or an empty list), stage 2 raises its no-data exception internally, saves
the screenshot, tears the session down, and returns the same None value as
every error outcome; the no-data case is not distinguishable by the caller
from the error outcomes. -/
theorem no_data_returns_failure_value (url : String) (env : Stage2Env)
    (h1 : env.createDriver = .ok ()) (h2 : env.stealthCall = .ok ())
    (h3 : env.navigate = .ok ()) (h4 : env.waitClickable = .ok ())
    (h5 : env.clickTab = .ok ()) (h6 : env.waitRender = .ok ())
    (h7 : env.execScript = .ok none ∨ env.execScript = .ok (some [])) :
    stage2_extract_data_from_iframe url env =
      (none, [.driverCreated, .screenshotSaved, .driverQuit]) := by
  rcases h7 with h7 | h7 <;>
    simp [stage2_extract_data_from_iframe, stage2Body, h1, h2, h3, h4, h5, h6, h7]

/-- C4 witness: the amended theorem applied to a session whose script
returns the JS null. -/
theorem no_data_returns_failure_value_witness :
    ({ okBrowserEnv with execScript := .ok none } : Stage2Env).execScript = .ok none ∧
    stage2_extract_data_from_iframe "url" { okBrowserEnv with execScript := .ok none } =
      (none, [.driverCreated, .screenshotSaved, .driverQuit]) :=
  ⟨rfl, no_data_returns_failure_value "url" { okBrowserEnv with execScript := .ok none }
    rfl rfl rfl rfl rfl rfl (Or.inl rfl)⟩

/-- C7 counterexample: when driver construction itself raises, stage 2 fails
but no screenshot is captured, because the except branch guards the capture
on a non-null driver. -/
theorem no_screenshot_when_driver_creation_fails :
    ({ okBrowserEnv with createDriver := .error (.generalExn "driver init failed") } :
        Stage2Env).createDriver = .error (.generalExn "driver init failed") ∧
    (stage2_extract_data_from_iframe "url"
        { okBrowserEnv with createDriver := .error (.generalExn "driver init failed") }).1
      = none ∧
    Effect.screenshotSaved ∉ (stage2_extract_data_from_iframe "url"
        { okBrowserEnv with createDriver := .error (.generalExn "driver init failed") }).2 := by
  refine ⟨rfl, rfl, by decide⟩

/-- C7 (amended): for every exception raised after the browser session was
acquired, the screenshot is saved, then the session is quit, and only then
is the failure value returned to the caller; when acquisition itself fails
no screenshot exists. -/
theorem screenshot_saved_on_failure_after_acquisition (url : String) (env : Stage2Env)
    (e : PyExn) (h : env.createDriver = .ok ()) (hb : stage2Body env = .error e) :
    stage2_extract_data_from_iframe url env =
      (none, [.driverCreated, .screenshotSaved, .driverQuit]) := by
  simp [stage2_extract_data_from_iframe, h, hb]

/-- C7 witness: the amended theorem applied to a session whose render wait
times out. -/
theorem screenshot_saved_on_failure_after_acquisition_witness :
    ({ okBrowserEnv with waitRender := .error .timeoutExn } : Stage2Env).createDriver
      = .ok () ∧
    stage2Body { okBrowserEnv with waitRender := .error .timeoutExn } =
      .error .timeoutExn ∧
    stage2_extract_data_from_iframe "url" { okBrowserEnv with waitRender := .error .timeoutExn } =
      (none, [.driverCreated, .screenshotSaved, .driverQuit]) :=
  ⟨rfl, rfl, screenshot_saved_on_failure_after_acquisition "url"
    { okBrowserEnv with waitRender := .error .timeoutExn } .timeoutExn rfl rfl⟩

/-- Auxiliary: writing the processing output and the screenshot a second
time, with the same data and effects, leaves the file system unchanged,
because each file is overwritten whole. -/
theorem save_overwrite (d : Option (List SeriesJS)) (effs : List Effect) (fs : FS) :
    process_and_save_data d (applyEffects effs (process_and_save_data d (applyEffects effs fs)))
      = process_and_save_data d (applyEffects effs fs) := by
  rcases fs with ⟨c, s⟩
  by_cases hm : Effect.screenshotSaved ∈ effs <;>
    rcases d with _ | ⟨_ | ⟨p, l⟩⟩ <;>
      simp [process_and_save_data, applyEffects, hm]

/-- Auxiliary: every URL the Locator returns extends the nonempty base path,
so it is never the empty string. -/
theorem stage1_url_ne_empty (fetch : Except PyExn HttpResponse) (u : String)
    (h : (stage1_infiltrate_and_get_iframe_url fetch).url = some u) : u ≠ "" := by
  match fetch with
  | .error e => simp [stage1_infiltrate_and_get_iframe_url] at h
  | .ok resp =>
    simp only [stage1_infiltrate_and_get_iframe_url] at h
    by_cases hst : 400 ≤ resp.status ∧ resp.status < 600
    · simp [hst] at h
    · rw [if_neg hst] at h
      cases hfind : searchIframeSrc resp.body with
      | none => rw [hfind] at h; simp at h
      | some rel =>
        rw [hfind] at h
        simp only [Option.some.injEq] at h
        intro hu
        rw [hu] at h
        have hdata := congrArg String.data h
        rw [String.data_append] at hdata
        have hnil : BASE_URL.data ++ (pyLstrip ['.', '/'] rel).data = ([] : List Char) := hdata
        have : BASE_URL.data = [] := (List.append_eq_nil.mp hnil).1
        simp [BASE_URL] at this

/-- C8: one full pipeline run is a function of the mocked responses alone
and writes each output file whole, so running the pipeline a second time
with the same responses leaves the file system, and hence the output
records, byte-identical: there is no hidden run-to-run state. -/
theorem pipeline_runs_idempotent (env : PipelineEnv) (fs : FS) :
    mainRun env (mainRun env fs).1 = mainRun env fs := by
  cases h : (stage1_infiltrate_and_get_iframe_url env.fetchMain).url with
  | none => simp [mainRun, h]
  | some u =>
    by_cases hu : u = ""
    · simp [mainRun, h, hu]
    · simp only [mainRun, h, if_neg hu]
      exact Prod.ext (save_overwrite _ _ _) rfl

/-- C9: the Renderer-Extractor stage runs exactly when the Locator completed
successfully and returned a URL; on every Locator failure signal stage 2 is
never started. -/
theorem stage2_runs_iff_locator_url (env : PipelineEnv) (fs : FS) :
    MainEv.stage2Run ∈ (mainRun env fs).2 ↔
      ∃ u, (stage1_infiltrate_and_get_iframe_url env.fetchMain).url = some u := by
  cases h : (stage1_infiltrate_and_get_iframe_url env.fetchMain).url with
  | none => simp [mainRun, h]
  | some u =>
    have hne : u ≠ "" := stage1_url_ne_empty _ _ h
    simp [mainRun, h, hne]

end GraphScrape

namespace Scrape

/-- C10: the article scraper is a total function of its environment (every
exception of the source is caught and becomes the empty DataFrame), and its
result is non-empty exactly when the article text was obtained and at least
one keyword pattern extracted a numeric value from it; every failure path,
request error, missing link, missing content element or no keyword matched,
yields the empty DataFrame. -/
theorem scrape_nonempty_iff_keyword_found (env : ScrapeEnv) :
    scrape_sxcoal_inventory env ≠ [] ↔
      ∃ t, fetchArticleText env = some t ∧
        ∃ kw ∈ keywords, searchKeywordNumber kw.1.toList t.toList ≠ none := by
  have hcell : ∀ (t : String) (kw : String × String),
      cellIsNotFound (cellFor t kw) = true ↔
        searchKeywordNumber kw.1.toList t.toList = none := by
    intro t kw
    cases hs : searchKeywordNumber kw.1.toList t.toList with
    | none => simp only [cellFor, cellIsNotFound, hs]
    | some n => simp only [cellFor, cellIsNotFound, hs]; simp
  cases h : fetchArticleText env with
  | none => simp [scrape_sxcoal_inventory, h]
  | some text =>
    simp only [scrape_sxcoal_inventory, h]
    constructor
    · intro hne
      refine ⟨text, rfl, ?_⟩
      by_contra hnone
      push_neg at hnone
      apply hne
      have hC : (keywords.map (cellFor text)).all cellIsNotFound = true := by
        rw [List.all_eq_true]
        intro r hr
        rcases List.mem_map.mp hr with ⟨kw, hkw, rfl⟩
        exact (hcell text kw).mpr (hnone kw hkw)
      rw [if_pos hC]
    · rintro ⟨t, ht, kw, hkw, hne⟩
      injection ht with ht
      subst ht
      have hC : ¬ ((keywords.map (cellFor text)).all cellIsNotFound = true) := by
        rw [List.all_eq_true]
        intro hf
        exact hne ((hcell text kw).mp (hf _ (List.mem_map.mpr ⟨kw, hkw, rfl⟩)))
      rw [if_neg hC]
      simp [keywords, cellFor]

end Scrape
